import Mathlib

/-!
Verification of the catalog query/presentation layer of eya20/hiring_test.

The Go sources are shallowly embedded: the persistence engine (gorm over
Postgres) is modelled as a pure snapshot `Store` holding the raw rows plus an
optional injected failure signal (the spec treats the store as a black-box
port that either returns rows or surfaces an opaque failure).  Repository
functions, the catalog service and the HTTP handlers are translated
definition-by-definition from the Go code; handler outcomes are values of
`HandlerResult` (status code + message instead of writes to an
http.ResponseWriter).
-/

/-- Go error values.  Go compares errors in two ways that this code uses:
by identity (`err == gorm.ErrRecordNotFound`) and by message text
(`err.Error() == "..."`).  `errRecordNotFound` is the gorm sentinel;
`errorsNew msg` is a fresh error created by `errors.New(msg)`, which is never
identical to the sentinel even when its text coincides. -/
inductive GoErr where
  | errRecordNotFound : GoErr
  | errorsNew (msg : String) : GoErr
deriving DecidableEq, Repr

/-- `err.Error()`: the descriptive text of a Go error.  The gorm sentinel's
text is "record not found". -/
def GoErr.Error : GoErr → String
  | .errRecordNotFound => "record not found"
  | .errorsNew msg => msg

/-- `decimal.Decimal` (shopspring): a fixed-point decimal, modelled as an
exact rational. -/
structure Decimal where
  val : Rat
deriving DecidableEq, Repr

/-- `Decimal.IsZero()`: true iff the decimal value is zero. -/
def Decimal.IsZero (d : Decimal) : Bool := d.val == 0

/-- `Decimal.InexactFloat64()`: the decimal-to-float conversion used by the
presentation mapping.  IEEE rounding is outside this embedding; the
conversion is modelled as the exact rational value. -/
def Decimal.InexactFloat64 (d : Decimal) : Rat := d.val

namespace models

/-- `models.Category` (src/models/categories_repository.go part): unique code
plus display name, with a serial primary key. -/
structure Category where
  ID : Nat
  Code : String
  Name : String
deriving DecidableEq, Repr

/-- `models.Variant`: a product variant row — display name, SKU, and a price
that may be zero meaning "not set".  The struct file is not under src/; the
fields are reconstructed from their uses in the service and tests. -/
structure Variant where
  Name : String
  SKU : String
  Price : Decimal
deriving DecidableEq, Repr

/-- A raw `products` row together with its variant rows, before gorm's
`Preload` resolves the category reference.  `categoryId` is the nullable
`category_id` column (sql/005-update-products-category.sql). -/
structure ProductRow where
  id : Nat
  code : String
  price : Decimal
  categoryId : Option Nat
  variants : List Variant
deriving DecidableEq, Repr

/-- `models.Product` after `Preload("Category").Preload("Variants")`: the
category reference is resolved to a full record (gorm leaves the zero value
when the reference is null or dangling).  The struct file is not under src/;
fields are reconstructed from their uses in the service and tests. -/
structure Product where
  ID : Nat
  Code : String
  Price : Decimal
  Category : Category
  Variants : List Variant
deriving DecidableEq, Repr

/-- The zero value of `models.Category`, what gorm leaves in the `Category`
field when no category row matches. -/
def zeroCategory : Category := { ID := 0, Code := "", Name := "" }

/-- gorm `Preload("Category")`: resolve `category_id` against the categories
table; a null or dangling reference leaves the zero-value category. -/
def loadProduct (cats : List Category) (r : ProductRow) : Product :=
  { ID := r.id
    Code := r.code
    Price := r.price
    Category :=
      match r.categoryId with
      | none => zeroCategory
      | some cid => (cats.find? (fun c => c.ID == cid)).getD zeroCategory
    Variants := r.variants }

/-- The black-box store snapshot: raw product rows, category rows, and an
optional injected persistence-failure signal.  When `failure` is present
every query surfaces it; otherwise queries answer from the snapshot. -/
structure Store where
  products : List ProductRow
  categories : List Category
  failure : Option GoErr
deriving DecidableEq, Repr

/-- The row predicate the gorm query of
`ProductsRepository.GetProductsPaginatedWithFilters` builds: when the
category filter is non-empty the query joins `categories` on
`products.category_id = categories.id` and keeps rows whose joined category
*name* equals the filter; when the price filter is present it keeps rows with
`products.price < priceLt` (strict); the clauses are conjoined; an absent
filter field adds no clause. -/
def matchesFilters (cats : List Category) (category : String)
    (priceLt : Option Rat) (r : ProductRow) : Bool :=
  (category == "" ||
    (match r.categoryId with
     | none => false
     | some cid => cats.any (fun c => c.ID == cid && c.Name == category))) &&
  (match priceLt with
   | none => true
   | some q => decide (r.price.val < q))

/-- `ORDER BY products.code ASC`: insertion of a row into a code-sorted list. -/
def orderedInsertByCode (r : ProductRow) : List ProductRow → List ProductRow
  | [] => [r]
  | x :: xs =>
    if r.code ≤ x.code then r :: x :: xs else x :: orderedInsertByCode r xs

/-- `ORDER BY products.code ASC`: insertion sort of the filtered rows. -/
def sortByCodeAsc : List ProductRow → List ProductRow
  | [] => []
  | x :: xs => orderedInsertByCode x (sortByCodeAsc xs)

/-- `ProductsRepository.GetAllProducts`: `Preload("Category").Preload("Variants").Find`. -/
def ProductsRepository.GetAllProducts (st : Store) :
    Except GoErr (List Product) :=
  match st.failure with
  | some e => .error e
  | none => .ok (st.products.map (loadProduct st.categories))

/-- `ProductsRepository.GetProductsPaginatedWithFilters`: applies the filter
clauses, orders by code ascending, then `Offset(offset).Limit(limit).Find`
with the preloads. -/
def ProductsRepository.GetProductsPaginatedWithFilters (st : Store)
    (offset limit : Nat) (category : String) (priceLt : Option Rat) :
    Except GoErr (List Product) :=
  match st.failure with
  | some e => .error e
  | none =>
    .ok ((((sortByCodeAsc
        (st.products.filter (matchesFilters st.categories category priceLt))).drop
          offset).take limit).map (loadProduct st.categories))

/-- `ProductsRepository.GetProductsCountWithFilters`: `Count` with the same
two filter clauses and no pagination. -/
def ProductsRepository.GetProductsCountWithFilters (st : Store)
    (category : String) (priceLt : Option Rat) : Except GoErr Nat :=
  match st.failure with
  | some e => .error e
  | none =>
    .ok (st.products.filter (matchesFilters st.categories category priceLt)).length

/-- `ProductsRepository.GetProductByCode`: `Where("code = ?", code).First`
with the preloads; gorm's `First` surfaces `ErrRecordNotFound` when no row
matches.  SQL string equality on a VARCHAR column is case-sensitive. -/
def ProductsRepository.GetProductByCode (st : Store) (code : String) :
    Except GoErr Product :=
  match st.failure with
  | some e => .error e
  | none =>
    match st.products.find? (fun p => p.code == code) with
    | none => .error .errRecordNotFound
    | some row => .ok (loadProduct st.categories row)

/-- `CategoriesRepository.GetAllCategories`: `Find` on the categories table. -/
def CategoriesRepository.GetAllCategories (st : Store) :
    Except GoErr (List Category) :=
  match st.failure with
  | some e => .error e
  | none => .ok st.categories

/-- `CategoriesRepository.CreateCategory`: `db.Create` — inserts the record
and fills its serial ID; any constraint or connectivity failure of the
engine surfaces as the injected signal. -/
def CategoriesRepository.CreateCategory (st : Store) (c : Category) :
    Except GoErr Category :=
  match st.failure with
  | some e => .error e
  | none => .ok { c with ID := st.categories.length + 1 }

end models

namespace catalog

/-- `catalog.Product`: the API representation of a product in list responses. -/
structure Product where
  Code : String
  Price : Rat
  Category : String
deriving DecidableEq, Repr

/-- `catalog.Variant`: the API representation of a product variant. -/
structure Variant where
  Name : String
  SKU : String
  Price : Rat
deriving DecidableEq, Repr

/-- `catalog.ProductDetails`: the API representation of one product with its
variants. -/
structure ProductDetails where
  Code : String
  Price : Rat
  Category : String
  Variants : List Variant
deriving DecidableEq, Repr

/-- `catalog.Response`: the catalog list response — products plus a total. -/
structure Response where
  Products : List Product
  Total : Nat
deriving DecidableEq, Repr

/-- `catalog.Category`: the API representation of a category. -/
structure Category where
  Code : String
  Name : String
deriving DecidableEq, Repr

/-- `catalog.CreateCategoryRequest`: the decoded POST /categories body. -/
structure CreateCategoryRequest where
  Code : String
  Name : String
deriving DecidableEq, Repr

/-- `catalogService.GetProducts`: fetch all products and map each to the API
shape; an explicit empty-result check returns the empty slice. -/
def catalogService.GetProducts (st : models.Store) :
    Except GoErr (List Product) :=
  match models.ProductsRepository.GetAllProducts st with
  | .error e => .error e
  | .ok dbProducts =>
    if dbProducts.length = 0 then .ok []
    else
      .ok (dbProducts.map (fun p =>
        { Code := p.Code
          Price := p.Price.InexactFloat64
          Category := p.Category.Name }))

/-- `catalogService.GetProductsPaginatedWithFilters`: fetch one filtered page,
then the filtered count, then map the page to the API shape. -/
def catalogService.GetProductsPaginatedWithFilters (st : models.Store)
    (offset limit : Nat) (category : String) (priceLt : Option Rat) :
    Except GoErr (List Product × Nat) :=
  match models.ProductsRepository.GetProductsPaginatedWithFilters st offset
      limit category priceLt with
  | .error e => .error e
  | .ok dbProducts =>
    match models.ProductsRepository.GetProductsCountWithFilters st category
        priceLt with
    | .error e => .error e
    | .ok total =>
      .ok (dbProducts.map (fun p =>
        { Code := p.Code
          Price := p.Price.InexactFloat64
          Category := p.Category.Name }), total)

/-- `catalogService.GetProductByCode`: fetch one product by code, then map its
variants with the price-inheritance rule: default to the product price, use
the variant price only when it is non-zero. -/
def catalogService.GetProductByCode (st : models.Store) (code : String) :
    Except GoErr ProductDetails :=
  match models.ProductsRepository.GetProductByCode st code with
  | .error e => .error e
  | .ok dbProduct =>
    .ok { Code := dbProduct.Code
          Price := dbProduct.Price.InexactFloat64
          Category := dbProduct.Category.Name
          Variants := dbProduct.Variants.map (fun v =>
            { Name := v.Name
              SKU := v.SKU
              Price :=
                if !v.Price.IsZero then v.Price.InexactFloat64
                else dbProduct.Price.InexactFloat64 }) }

end catalog

/-- A handler outcome: either a 200 response with a typed body, or an error
status with a message (what `api.OKResponse` / `api.ErrorResponse` write). -/
inductive HandlerResult (α : Type) where
  | ok (body : α)
  | err (status : Nat) (message : String)
deriving DecidableEq, Repr

/-- Modelled from the spec: the `app/api` helper package is not under src/.
`BuildErrorMessage` prepends a descriptive text to the error's message; the
claims depend only on the status category, not on this text. -/
def api.BuildErrorMessage (s : String) (e : GoErr) : String := s ++ e.Error

/-- `strings.TrimPrefix(s, pre)` from the Go standard library: removes `pre`
from the start of `s` when `s` begins with it, otherwise returns `s`
unchanged. -/
def trimLeading (pre s : String) : String :=
  if pre.data.isPrefixOf s.data then { data := s.data.drop pre.data.length } else s

namespace catalog

/-- `CatalogHandler.GetCatalog`: list all products; a failure whose text is
"database connection failed" maps to 503, any other failure to 500; on
success the response carries the products and `len(products)` as total. -/
def CatalogHandler.GetCatalog (st : models.Store) : HandlerResult Response :=
  match catalogService.GetProducts st with
  | .error e =>
    if e.Error = "database connection failed" then
      .err 503 (api.BuildErrorMessage "Database service is temporarily unavailable: " e)
    else
      .err 500 (api.BuildErrorMessage "Unable to retrieve products at this time: " e)
  | .ok products => .ok { Products := products, Total := products.length }

/-- `CatalogHandler.GetProductDetails`: extract the code from the URL path
(`strings.TrimPrefix(path, "/catalog/")`), reject an empty code with 400,
then classify failures: identity with `gorm.ErrRecordNotFound` maps to 404,
the connectivity text to 503, anything else to 500. -/
def CatalogHandler.GetProductDetails (st : models.Store) (path : String) :
    HandlerResult ProductDetails :=
  let code := trimLeading "/catalog/" path
  if code = "" then .err 400 "Product code is required"
  else
    match catalogService.GetProductByCode st code with
    | .error e =>
      if e = GoErr.errRecordNotFound then .err 404 "Product not found"
      else if e.Error = "database connection failed" then
        .err 503 (api.BuildErrorMessage "Database service is temporarily unavailable: " e)
      else
        .err 500 (api.BuildErrorMessage "Unable to retrieve product: " e)
    | .ok product => .ok product

/-- `CategoriesHandler.GetCategories`: list all categories mapped to the API
shape; the connectivity text maps to 503, any other failure to 500. -/
def CategoriesHandler.GetCategories (st : models.Store) :
    HandlerResult (List Category) :=
  match models.CategoriesRepository.GetAllCategories st with
  | .error e =>
    if e.Error = "database connection failed" then
      .err 503 (api.BuildErrorMessage "Database service is temporarily unavailable: " e)
    else
      .err 500 (api.BuildErrorMessage "Unable to retrieve categories at this time: " e)
  | .ok dbCategories =>
    .ok (dbCategories.map (fun c => { Code := c.Code, Name := c.Name }))

/-- `CategoriesHandler.CreateCategory`: `none` stands for a body that failed
JSON decoding.  Validation rejects an empty code first, then an empty name;
then the store is asked to create the record, and a failure is classified:
connectivity text to 503, either of the two unique-constraint texts to 409,
anything else to 500.  On success the created category's code and name are
returned. -/
def CategoriesHandler.CreateCategory (st : models.Store)
    (body : Option CreateCategoryRequest) : HandlerResult Category :=
  match body with
  | none => .err 400 "Invalid JSON format"
  | some req =>
    if req.Code = "" then .err 400 "Code is required"
    else if req.Name = "" then .err 400 "Name is required"
    else
      let dbCategory : models.Category := { ID := 0, Code := req.Code, Name := req.Name }
      match models.CategoriesRepository.CreateCategory st dbCategory with
      | .error e =>
        if e.Error = "database connection failed" then
          .err 503 (api.BuildErrorMessage "Database service is temporarily unavailable: " e)
        else if e.Error = "UNIQUE constraint failed: categories.code" ||
            e.Error = "duplicate key value violates unique constraint" then
          .err 409 "Category with this code already exists"
        else
          .err 500 (api.BuildErrorMessage "Unable to create category: " e)
      | .ok created => .ok { Code := created.Code, Name := created.Name }

end catalog

namespace models

/-- The filter as the spec words it (refinement target for
`matchesFilters`): the category filter, when present, matches by the
product's resolved category *name*; the price filter, when present, is a
strict less-than comparison; the two are ANDed; an absent field imposes no
restriction. -/
def matchesFilterSpec (cats : List Category) (category : String)
    (priceLt : Option Rat) (r : ProductRow) : Bool :=
  (category == "" || (loadProduct cats r).Category.Name == category) &&
  (match priceLt with
   | none => true
   | some q => decide (r.price.val < q))

end models

namespace catalog

/-- The per-variant presentation projection `GetProductByCode` performs at
index `i` of the variants loop: name and SKU copied, price resolved by the
inheritance rule against the owning product's price. -/
def presentVariant (productPrice : Decimal) (v : models.Variant) : Variant :=
  { Name := v.Name
    SKU := v.SKU
    Price :=
      if !v.Price.IsZero then v.Price.InexactFloat64
      else productPrice.InexactFloat64 }

end catalog

/-- A concrete store used to witness the hypotheses of the theorems: one
clothing category and one product with two variants, one carrying an
override price and one with price zero (inheriting). -/
def sampleStore : models.Store :=
  { products :=
      [{ id := 1
         code := "PROD001"
         price := { val := 30 }
         categoryId := some 1
         variants :=
           [{ Name := "Small", SKU := "PROD001-S", Price := { val := 45 } },
            { Name := "Large", SKU := "PROD001-L", Price := { val := 0 } }] }]
    categories := [{ ID := 1, Code := "CATGORY001", Name := "Clothing" }]
    failure := none }

/-- An empty healthy store. -/
def emptyStore : models.Store :=
  { products := [], categories := [], failure := none }

/-- A store whose every query surfaces the connectivity-failure signal. -/
def downStore : models.Store :=
  { products := [], categories := [],
    failure := some (.errorsNew "database connection failed") }

/-- A store whose every query surfaces a duplicate-key constraint signal, as
Postgres emits on a uniqueness violation. -/
def uniqueViolationStore : models.Store :=
  { products := [], categories := [],
    failure := some (.errorsNew "duplicate key value violates unique constraint") }

/-- A store whose every query surfaces a fresh error whose text merely reads
"record not found" — same text as the gorm sentinel, different identity. -/
def ghostNotFoundStore : models.Store :=
  { products := [], categories := [],
    failure := some (.errorsNew "record not found") }

/-- The loaded `models.Product` the repository returns for PROD001 of
`sampleStore`. -/
def sampleDbp : models.Product :=
  { ID := 1
    Code := "PROD001"
    Price := { val := 30 }
    Category := { ID := 1, Code := "CATGORY001", Name := "Clothing" }
    Variants :=
      [{ Name := "Small", SKU := "PROD001-S", Price := { val := 45 } },
       { Name := "Large", SKU := "PROD001-L", Price := { val := 0 } }] }

/-- The presentation record the service returns for PROD001 of
`sampleStore`: the Small variant keeps its override price, the Large variant
inherits the product price. -/
def sampleDetails : catalog.ProductDetails :=
  { Code := "PROD001"
    Price := 30
    Category := "Clothing"
    Variants :=
      [{ Name := "Small", SKU := "PROD001-S", Price := 45 },
       { Name := "Large", SKU := "PROD001-L", Price := 30 }] }

/-- The second (index 1) stored variant of PROD001: price zero, meaning
"not set". -/
def largeVariant : models.Variant :=
  { Name := "Large", SKU := "PROD001-L", Price := { val := 0 } }

/-- The second (index 1) presented variant of PROD001: price inherited. -/
def largePresented : catalog.Variant :=
  { Name := "Large", SKU := "PROD001-L", Price := 30 }

/-- The catalog list response for `sampleStore`. -/
def sampleResponse : catalog.Response :=
  { Products := [{ Code := "PROD001", Price := 30, Category := "Clothing" }]
    Total := 1 }

section helperLemmas

/-- String concatenation concatenates the underlying character lists. -/
theorem String.data_appendChars (s t : String) : (s ++ t).data = s.data ++ t.data := rfl

/-- `trimLeading` removes a leading occurrence it is given. -/
theorem trimLeading_append (pre c : String) : trimLeading pre (pre ++ c) = c := by
  have hpre : pre.data.isPrefixOf (pre ++ c).data = true := by
    rw [List.isPrefixOf_iff_prefix, String.data_appendChars]
    exact ⟨c.data, rfl⟩
  rw [trimLeading, if_pos hpre, String.data_appendChars, List.drop_left]

namespace models

theorem mem_orderedInsertByCode {x r : ProductRow} {l : List ProductRow}
    (h : x ∈ orderedInsertByCode r l) : x = r ∨ x ∈ l := by
  induction l with
  | nil =>
    rw [orderedInsertByCode] at h
    exact Or.inl (List.mem_singleton.mp h)
  | cons a as ih =>
    rw [orderedInsertByCode] at h
    split at h
    · simpa using h
    · rcases List.mem_cons.mp h with h1 | h2
      · exact Or.inr (h1 ▸ List.mem_cons_self a as)
      · rcases ih h2 with h3 | h4
        · exact Or.inl h3
        · exact Or.inr (List.mem_cons_of_mem a h4)

theorem mem_sortByCodeAsc {x : ProductRow} {l : List ProductRow}
    (h : x ∈ sortByCodeAsc l) : x ∈ l := by
  induction l with
  | nil =>
    rw [sortByCodeAsc] at h
    exact absurd h (List.not_mem_nil x)
  | cons a as ih =>
    rw [sortByCodeAsc] at h
    rcases mem_orderedInsertByCode h with h1 | h2
    · exact h1 ▸ List.mem_cons_self a as
    · exact List.mem_cons_of_mem a (ih h2)

/-- Under uniqueness of category primary keys (a database invariant), the
join-based category clause of the query agrees with "the resolved category
name equals the filter". -/
theorem categoryClause_eq (cats : List Category) (category : String)
    (r : ProductRow) (hnodup : (cats.map Category.ID).Nodup)
    (hcat : category ≠ "") :
    (match r.categoryId with
     | none => false
     | some cid => cats.any (fun c => c.ID == cid && c.Name == category)) =
      ((loadProduct cats r).Category.Name == category) := by
  have hne : ∀ s : String, s = "" → (s == category) = false := by
    intro s hs
    rw [hs]
    exact beq_eq_false_iff_ne.mpr (fun h => hcat h.symm)
  cases hcid : r.categoryId with
  | none =>
    simp only [loadProduct, hcid]
    exact (hne zeroCategory.Name rfl).symm
  | some cid =>
    simp only [loadProduct, hcid]
    cases hf : cats.find? (fun c => c.ID == cid) with
    | none =>
      have hnone : ∀ c ∈ cats, (c.ID == cid) = false := by
        intro c hc
        have := List.find?_eq_none.mp hf c hc
        exact Bool.not_eq_true _ ▸ (by simpa using this)
      simp only [Option.getD_none]
      rw [hne zeroCategory.Name rfl, List.any_eq_false]
      intro c hc
      rw [hnone c hc, Bool.false_and]
      simp
    | some c0 =>
      have hc0mem : c0 ∈ cats := List.mem_of_find?_eq_some hf
      have hc0id : (c0.ID == cid) = true := by
        have h := List.find?_some hf
        simpa using h
      simp only [Option.getD_some]
      cases hname : c0.Name == category with
      | true =>
        rw [List.any_eq_true]
        exact ⟨c0, hc0mem, by simp [hc0id, hname]⟩
      | false =>
        rw [List.any_eq_false]
        intro c hc
        by_cases hcid2 : (c.ID == cid) = true
        · have : c = c0 :=
            List.inj_on_of_nodup_map hnodup hc hc0mem
              (by rw [beq_iff_eq] at hcid2 hc0id; rw [hcid2, hc0id])
          rw [this, hc0id, hname]
          simp
        · rw [Bool.not_eq_true] at hcid2
          rw [hcid2, Bool.false_and]
          simp

/-- The filter predicate the gorm query builds coincides with the spec's
filter predicate, given unique category primary keys. -/
theorem matchesFilters_eq_spec (cats : List Category) (category : String)
    (priceLt : Option Rat) (r : ProductRow)
    (hnodup : (cats.map Category.ID).Nodup) :
    matchesFilters cats category priceLt r =
      matchesFilterSpec cats category priceLt r := by
  rw [matchesFilters.eq_def, matchesFilterSpec.eq_def]
  by_cases hcat : category = ""
  · rw [hcat]
    rfl
  · have hc : (category == "") = false := beq_eq_false_iff_ne.mpr hcat
    rw [hc, Bool.false_or, Bool.false_or, categoryClause_eq cats category r hnodup hcat]

end models

end helperLemmas

/-- C7: when the store succeeds and returns zero product rows,
`catalogService.GetProducts` (listAll) returns an empty sequence and no
failure. -/
theorem c7_listAll_empty_store (st : models.Store)
    (h1 : st.failure = none) (h2 : st.products = []) :
    catalog.catalogService.GetProducts st = .ok [] := by
  have hrepo : models.ProductsRepository.GetAllProducts st = .ok [] := by
    rw [models.ProductsRepository.GetAllProducts.eq_def, h1, h2]
    rfl
  rw [catalog.catalogService.GetProducts.eq_def, hrepo]
  rfl

/-- C7 witness: the empty healthy store. -/
theorem c7_witness : catalog.catalogService.GetProducts emptyStore = .ok [] :=
  c7_listAll_empty_store emptyStore rfl rfl

/-- C9: every successful GET /catalog response carries a total equal to the
length of its products array, because the handler computes the total as
`len(products)` from the returned page. -/
theorem c9_getCatalog_total (st : models.Store) (resp : catalog.Response)
    (h : catalog.CatalogHandler.GetCatalog st = .ok resp) :
    resp.Total = resp.Products.length := by
  rw [catalog.CatalogHandler.GetCatalog.eq_def] at h
  cases hp : catalog.catalogService.GetProducts st with
  | error e =>
    exfalso
    rw [hp] at h
    have h2 : (if e.Error = "database connection failed" then
        HandlerResult.err 503
          (api.BuildErrorMessage "Database service is temporarily unavailable: " e)
      else
        HandlerResult.err 500
          (api.BuildErrorMessage "Unable to retrieve products at this time: " e)) =
        HandlerResult.ok resp := h
    split at h2 <;> simp at h2
  | ok products =>
    rw [hp] at h
    have h2 : HandlerResult.ok { Products := products, Total := products.length } =
        HandlerResult.ok resp := h
    injection h2 with h3
    rw [← h3]

/-- C9 witness: the one-product sample store. -/
theorem c9_witness : sampleResponse.Total = sampleResponse.Products.length :=
  c9_getCatalog_total sampleStore sampleResponse rfl

/-- C4: category creation rejects an empty code with the code-field
validation message, and otherwise rejects an empty name with the name-field
message — the code check runs first, so when both are empty only the code
violation is reported. -/
theorem c4_create_validates_code_then_name (st : models.Store)
    (code name : String) :
    (code = "" →
      catalog.CategoriesHandler.CreateCategory st
          (some { Code := code, Name := name }) = .err 400 "Code is required") ∧
    (code ≠ "" → name = "" →
      catalog.CategoriesHandler.CreateCategory st
          (some { Code := code, Name := name }) = .err 400 "Name is required") := by
  constructor
  · intro h
    simp only [catalog.CategoriesHandler.CreateCategory]
    rw [if_pos h]
  · intro h1 h2
    simp only [catalog.CategoriesHandler.CreateCategory]
    rw [if_neg h1, if_pos h2]

/-- C4 witness: empty code (with both-empty name untouched), then empty name. -/
theorem c4_witness :
    catalog.CategoriesHandler.CreateCategory emptyStore
        (some { Code := "", Name := "Electronics" }) = .err 400 "Code is required" ∧
    catalog.CategoriesHandler.CreateCategory emptyStore
        (some { Code := "CATGORY004", Name := "" }) = .err 400 "Name is required" :=
  ⟨(c4_create_validates_code_then_name emptyStore "" "Electronics").1 rfl,
   (c4_create_validates_code_then_name emptyStore "CATGORY004" "").2 (by decide) rfl⟩

/-- C6: a store failure carrying the known connectivity text maps to a 503
ServiceUnavailable outcome — never a 500 Internal one — in the catalog list,
category list, and category create operations. -/
theorem c6_connectivity_service_unavailable (st : models.Store) (e : GoErr)
    (h1 : st.failure = some e) (h2 : e.Error = "database connection failed") :
    catalog.CatalogHandler.GetCatalog st =
        .err 503 (api.BuildErrorMessage "Database service is temporarily unavailable: " e) ∧
    catalog.CategoriesHandler.GetCategories st =
        .err 503 (api.BuildErrorMessage "Database service is temporarily unavailable: " e) ∧
    ∀ code name : String, code ≠ "" → name ≠ "" →
      catalog.CategoriesHandler.CreateCategory st
          (some { Code := code, Name := name }) =
        .err 503 (api.BuildErrorMessage "Database service is temporarily unavailable: " e) := by
  have hprod : catalog.catalogService.GetProducts st = .error e := by
    rw [catalog.catalogService.GetProducts.eq_def,
      models.ProductsRepository.GetAllProducts.eq_def, h1]
  have hcats : models.CategoriesRepository.GetAllCategories st = .error e := by
    rw [models.CategoriesRepository.GetAllCategories.eq_def, h1]
  refine ⟨?_, ?_, ?_⟩
  · rw [catalog.CatalogHandler.GetCatalog.eq_def, hprod]
    simp [h2]
  · rw [catalog.CategoriesHandler.GetCategories.eq_def, hcats]
    simp [h2]
  · intro code name hcode hname
    have hcreate : models.CategoriesRepository.CreateCategory st
        { ID := 0, Code := code, Name := name } = .error e := by
      rw [models.CategoriesRepository.CreateCategory.eq_def, h1]
    simp only [catalog.CategoriesHandler.CreateCategory]
    rw [if_neg hcode, if_neg hname, hcreate]
    simp [h2]

/-- C6 witness: the unreachable store. -/
theorem c6_witness :
    catalog.CatalogHandler.GetCatalog downStore =
        .err 503 (api.BuildErrorMessage "Database service is temporarily unavailable: "
          (.errorsNew "database connection failed")) ∧
    catalog.CategoriesHandler.GetCategories downStore =
        .err 503 (api.BuildErrorMessage "Database service is temporarily unavailable: "
          (.errorsNew "database connection failed")) ∧
    catalog.CategoriesHandler.CreateCategory downStore
        (some { Code := "CATGORY004", Name := "Electronics" }) =
      .err 503 (api.BuildErrorMessage "Database service is temporarily unavailable: "
        (.errorsNew "database connection failed")) := by
  have h := c6_connectivity_service_unavailable downStore
    (.errorsNew "database connection failed") rfl rfl
  exact ⟨h.1, h.2.1, h.2.2 "CATGORY004" "Electronics" (by decide) (by decide)⟩

/-- C3: when no stored product's code equals the requested code exactly
(string equality, hence case-sensitive), `catalogService.GetProductByCode`
fails with the record-not-found sentinel, and the product-details endpoint
reports a 404 NotFound outcome. -/
theorem c3_getByCode_not_found (st : models.Store) (code : String)
    (h1 : st.failure = none)
    (h2 : ∀ r ∈ st.products, r.code ≠ code) :
    catalog.catalogService.GetProductByCode st code =
        .error GoErr.errRecordNotFound ∧
    (code ≠ "" →
      catalog.CatalogHandler.GetProductDetails st ("/catalog/" ++ code) =
        .err 404 "Product not found") := by
  have hfind : st.products.find? (fun p => p.code == code) = none :=
    List.find?_eq_none.mpr (fun r hr => by simp [h2 r hr])
  have hrepo : models.ProductsRepository.GetProductByCode st code =
      .error GoErr.errRecordNotFound := by
    rw [models.ProductsRepository.GetProductByCode.eq_def, h1, hfind]
  have hsvc : catalog.catalogService.GetProductByCode st code =
      .error GoErr.errRecordNotFound := by
    rw [catalog.catalogService.GetProductByCode.eq_def, hrepo]
  refine ⟨hsvc, fun hc => ?_⟩
  rw [catalog.CatalogHandler.GetProductDetails.eq_def]
  simp only [trimLeading_append]
  rw [if_neg hc, hsvc]
  simp

/-- C3 witness: code UNKNOWN against the empty store. -/
theorem c3_witness :
    catalog.catalogService.GetProductByCode emptyStore "UNKNOWN" =
        .error GoErr.errRecordNotFound ∧
    catalog.CatalogHandler.GetProductDetails emptyStore "/catalog/UNKNOWN" =
        .err 404 "Product not found" := by
  have h := c3_getByCode_not_found emptyStore "UNKNOWN" rfl (by simp [emptyStore])
  exact ⟨h.1, h.2 (by decide)⟩

/-- C10: the product-details operation classifies not-found by identity with
the gorm sentinel, not by message text: a store failure whose text reads
"record not found" but which is a different error value is reported as a 500
Internal outcome, not a 404. -/
theorem c10_not_found_by_identity (st : models.Store) (code : String)
    (e : GoErr) (h1 : st.failure = some e)
    (h2 : e ≠ GoErr.errRecordNotFound) (h3 : e.Error = "record not found")
    (h4 : code ≠ "") :
    catalog.CatalogHandler.GetProductDetails st ("/catalog/" ++ code) =
      .err 500 (api.BuildErrorMessage "Unable to retrieve product: " e) := by
  have hrepo : models.ProductsRepository.GetProductByCode st code = .error e := by
    rw [models.ProductsRepository.GetProductByCode.eq_def, h1]
  have hsvc : catalog.catalogService.GetProductByCode st code = .error e := by
    rw [catalog.catalogService.GetProductByCode.eq_def, hrepo]
  rw [catalog.CatalogHandler.GetProductDetails.eq_def]
  simp only [trimLeading_append]
  rw [if_neg h4, hsvc]
  simp [h2, h3]

/-- C10 witness: a fresh "record not found" error distinct from the sentinel
yields 500, matching the repository's own NotFound test expectation. -/
theorem c10_witness :
    catalog.CatalogHandler.GetProductDetails ghostNotFoundStore
        "/catalog/INVALID" =
      .err 500 (api.BuildErrorMessage "Unable to retrieve product: "
        (.errorsNew "record not found")) :=
  c10_not_found_by_identity ghostNotFoundStore "INVALID"
    (.errorsNew "record not found") rfl (by decide) rfl (by decide)

/-- C5: with non-empty code and name, category creation reports a 409
Conflict exactly when the store's failure signal matches one of the two
known constraint-violation texts. -/
theorem c5_create_unique_violation_conflict (st : models.Store)
    (code name : String) (e : GoErr)
    (h1 : code ≠ "") (h2 : name ≠ "") (h3 : st.failure = some e) :
    catalog.CategoriesHandler.CreateCategory st
        (some { Code := code, Name := name }) =
        .err 409 "Category with this code already exists" ↔
      (e.Error = "UNIQUE constraint failed: categories.code" ∨
       e.Error = "duplicate key value violates unique constraint") := by
  have hcreate : models.CategoriesRepository.CreateCategory st
      { ID := 0, Code := code, Name := name } = .error e := by
    rw [models.CategoriesRepository.CreateCategory.eq_def, h3]
  simp only [catalog.CategoriesHandler.CreateCategory]
  rw [if_neg h1, if_neg h2, hcreate]
  by_cases hconn : e.Error = "database connection failed"
  · simp [hconn]
  · by_cases hu1 : e.Error = "UNIQUE constraint failed: categories.code"
    · simp [hconn, hu1]
    · by_cases hu2 : e.Error = "duplicate key value violates unique constraint"
      · simp [hconn, hu1, hu2]
      · simp [hconn, hu1, hu2]

/-- C5 witness: duplicate CATGORY001 against a store surfacing the
Postgres duplicate-key signal. -/
theorem c5_witness :
    catalog.CategoriesHandler.CreateCategory uniqueViolationStore
        (some { Code := "CATGORY001", Name := "Electronics" }) =
      .err 409 "Category with this code already exists" :=
  (c5_create_unique_violation_conflict uniqueViolationStore "CATGORY001"
      "Electronics" (.errorsNew "duplicate key value violates unique constraint")
      (by decide) (by decide) rfl).mpr (Or.inr rfl)

/-- C1: in every product-details result, a variant whose stored price is
zero (the representation of "absent or exactly zero" — a zero decimal is the
only way the model expresses an unset override) is presented at the owning
product's price, and a variant with a non-zero override is presented at that
override. -/
theorem c1_effective_price_inheritance (st : models.Store) (code : String)
    (details : catalog.ProductDetails) (dbp : models.Product)
    (hs : catalog.catalogService.GetProductByCode st code = .ok details)
    (hr : models.ProductsRepository.GetProductByCode st code = .ok dbp) :
    ∀ (i : Nat) (v : models.Variant) (pv : catalog.Variant),
      dbp.Variants[i]? = some v → details.Variants[i]? = some pv →
      (v.Price.val = 0 → pv.Price = dbp.Price.val) ∧
      (v.Price.val ≠ 0 → pv.Price = v.Price.val) := by
  rw [catalog.catalogService.GetProductByCode.eq_def, hr] at hs
  have hs2 : Except.ok
      ({ Code := dbp.Code
         Price := dbp.Price.InexactFloat64
         Category := dbp.Category.Name
         Variants := dbp.Variants.map (fun v =>
           { Name := v.Name
             SKU := v.SKU
             Price := if !v.Price.IsZero then v.Price.InexactFloat64
               else dbp.Price.InexactFloat64 }) } : catalog.ProductDetails) =
      Except.ok details := hs
  injection hs2 with hs3
  intro i v pv hv hpv
  rw [← hs3] at hpv
  simp only [List.getElem?_map, hv, Option.map_some'] at hpv
  injection hpv with hpv2
  rw [← hpv2]
  constructor
  · intro h0
    simp [Decimal.IsZero, Decimal.InexactFloat64, h0]
  · intro h0
    simp [Decimal.IsZero, Decimal.InexactFloat64, h0]

/-- C1 witness: the Large variant of sample product PROD001 carries price
zero and is presented at the product price. -/
theorem c1_witness : largePresented.Price = sampleDbp.Price.val :=
  (c1_effective_price_inheritance sampleStore "PROD001" sampleDetails
      sampleDbp rfl rfl 1 largeVariant largePresented rfl rfl).1 rfl

/-- C8: the product-details result presents exactly as many variants as the
store returned, and its i-th variant is derived from the i-th store variant
— no re-sorting, none added or dropped. -/
theorem c8_variant_order_preserved (st : models.Store) (code : String)
    (details : catalog.ProductDetails) (dbp : models.Product)
    (hs : catalog.catalogService.GetProductByCode st code = .ok details)
    (hr : models.ProductsRepository.GetProductByCode st code = .ok dbp) :
    details.Variants.length = dbp.Variants.length ∧
    ∀ i : Nat, details.Variants[i]? =
      (dbp.Variants[i]?).map (catalog.presentVariant dbp.Price) := by
  rw [catalog.catalogService.GetProductByCode.eq_def, hr] at hs
  have hs2 : Except.ok
      ({ Code := dbp.Code
         Price := dbp.Price.InexactFloat64
         Category := dbp.Category.Name
         Variants := dbp.Variants.map (fun v =>
           { Name := v.Name
             SKU := v.SKU
             Price := if !v.Price.IsZero then v.Price.InexactFloat64
               else dbp.Price.InexactFloat64 }) } : catalog.ProductDetails) =
      Except.ok details := hs
  injection hs2 with hs3
  constructor
  · rw [← hs3]
    simp
  · intro i
    rw [← hs3]
    simp only [List.getElem?_map]
    rfl

/-- C8 witness: PROD001 of the sample store keeps its two variants. -/
theorem c8_witness : sampleDetails.Variants.length = sampleDbp.Variants.length :=
  (c8_variant_order_preserved sampleStore "PROD001" sampleDetails sampleDbp
      rfl rfl).1

/-- C2: on success (with unique category primary keys), the filtered
paginated listing restricts both the returned page and the reported total to
the rows matching the spec's filter — category by resolved category name,
price by strict less-than, the two ANDed, an absent field unrestricted: the
total counts exactly the matching rows and every returned product is derived
from a matching row. -/
theorem c2_filtered_page_and_count (st : models.Store) (offset limit : Nat)
    (category : String) (priceLt : Option Rat)
    (page : List catalog.Product) (total : Nat)
    (hnodup : (st.categories.map models.Category.ID).Nodup)
    (h : catalog.catalogService.GetProductsPaginatedWithFilters st offset limit
        category priceLt = .ok (page, total)) :
    total = (st.products.filter
        (models.matchesFilterSpec st.categories category priceLt)).length ∧
    ∀ ap ∈ page, ∃ r ∈ st.products,
      models.matchesFilterSpec st.categories category priceLt r = true ∧
      ap.Code = r.code ∧ ap.Price = r.price.val ∧
      ap.Category = (models.loadProduct st.categories r).Category.Name := by
  have hfeq : st.products.filter
      (models.matchesFilters st.categories category priceLt) =
      st.products.filter
        (models.matchesFilterSpec st.categories category priceLt) :=
    List.filter_congr (fun x _ =>
      models.matchesFilters_eq_spec st.categories category priceLt x hnodup)
  cases hf : st.failure with
  | some e =>
    exfalso
    rw [catalog.catalogService.GetProductsPaginatedWithFilters.eq_def,
      models.ProductsRepository.GetProductsPaginatedWithFilters.eq_def, hf] at h
    simp at h
  | none =>
    have hrepo1 : models.ProductsRepository.GetProductsPaginatedWithFilters st
        offset limit category priceLt =
        .ok ((((models.sortByCodeAsc (st.products.filter
            (models.matchesFilters st.categories category priceLt))).drop
              offset).take limit).map (models.loadProduct st.categories)) := by
      rw [models.ProductsRepository.GetProductsPaginatedWithFilters.eq_def, hf]
    have hrepo2 : models.ProductsRepository.GetProductsCountWithFilters st
        category priceLt =
        .ok (st.products.filter
          (models.matchesFilters st.categories category priceLt)).length := by
      rw [models.ProductsRepository.GetProductsCountWithFilters.eq_def, hf]
    rw [catalog.catalogService.GetProductsPaginatedWithFilters.eq_def,
      hrepo1, hrepo2] at h
    have h2 : Except.ok (((((models.sortByCodeAsc (st.products.filter
        (models.matchesFilters st.categories category priceLt))).drop
          offset).take limit).map (models.loadProduct st.categories)).map
          (fun p => ({ Code := p.Code
                       Price := p.Price.InexactFloat64
                       Category := p.Category.Name } : catalog.Product)),
        (st.products.filter
          (models.matchesFilters st.categories category priceLt)).length) =
        Except.ok (page, total) := h
    injection h2 with h3
    injection h3 with hpage htotal
    constructor
    · rw [← htotal, hfeq]
    · intro ap hap
      rw [← hpage] at hap
      obtain ⟨p, hp, hap2⟩ := List.mem_map.mp hap
      obtain ⟨r, hrmem, hload⟩ := List.mem_map.mp hp
      have hr1 : r ∈ models.sortByCodeAsc (st.products.filter
          (models.matchesFilters st.categories category priceLt)) :=
        List.mem_of_mem_drop (List.mem_of_mem_take hrmem)
      have hr2 := models.mem_sortByCodeAsc hr1
      obtain ⟨hrprod, hrmatch⟩ := List.mem_filter.mp hr2
      refine ⟨r, hrprod, ?_, ?_, ?_, ?_⟩
      · rw [← models.matchesFilters_eq_spec st.categories category priceLt r
          hnodup]
        exact hrmatch
      · rw [← hap2, ← hload]
        rfl
      · rw [← hap2, ← hload]
        rfl
      · rw [← hap2, ← hload]

/-- C2 witness: filtering the sample store by category "Clothing" and price
below 50 returns its one matching product and counts exactly the matching
rows. -/
theorem c2_witness :
    (1 : Nat) = (sampleStore.products.filter
        (models.matchesFilterSpec sampleStore.categories "Clothing"
          (some 50))).length :=
  (c2_filtered_page_and_count sampleStore 0 10 "Clothing" (some 50)
      [{ Code := "PROD001", Price := 30, Category := "Clothing" }] 1
      (by decide) rfl).1
